import Mathlib

/-!
Shallow embedding of the PC-Agent printer bridge (veasyo-client):
the printer connection pool (`src/utils/printer-pool.ts`, in
`src/src/utils/validation.ts` lines 96-421 of the concatenated file),
the `printToPrinter` delivery path (same file, lines 531-566), and the
Socket.IO remote session `PcAgentClient` (`src/unnamed/part_005`).

Time is modelled as `Nat` milliseconds.  A TCP socket's observable
condition is collapsed into the single boolean the code reads
(`isConnected(): socket !== null && !destroyed && writable`).
-/

set_option autoImplicit false

namespace Veasyo

/-- One `PooledConnection` of the pool (printer-pool.ts lines 104-139):
wraps a `PrinterConnection` (identified here by `connId`), with the
`inUse` flag, the `lastUsed` timestamp and the wrapped connection's
`isConnected()` observation (`connected`). -/
structure PooledConnection where
  connId : Nat
  inUse : Bool
  lastUsed : Nat
  connected : Bool
  deriving DecidableEq, Repr

namespace PooledConnection

/-- `markInUse()` (printer-pool.ts lines 117-120): sets `inUse = true`
and `lastUsed = Date.now()` (the time is passed explicitly). -/
def markInUse (now : Nat) (c : PooledConnection) : PooledConnection :=
  { c with inUse := true, lastUsed := now }

/-- `release()` (printer-pool.ts lines 122-125): sets `inUse = false`
and `lastUsed = Date.now()`.  It does not touch the socket. -/
def release (now : Nat) (c : PooledConnection) : PooledConnection :=
  { c with inUse := false, lastUsed := now }

/-- `isAvailable()` (printer-pool.ts lines 127-138): false when `inUse`,
false when the wrapped connection is no longer connected, else true. -/
def isAvailable (c : PooledConnection) : Bool :=
  !c.inUse && c.connected

end PooledConnection

open PooledConnection

/-- A pool entry: the ordered array of `PooledConnection` the `Map`
stores for one `"ip:port"` key. -/
abbrev Entry := List PooledConnection

/-- A fresh `PooledConnection` as built in `acquireConnection`
(printer-pool.ts lines 282-284): wraps a just-constructed
`PrinterConnection` (socket still `null`, hence not connected),
`inUse = false`, `lastUsed = Date.now()`. -/
def newPooled (cid now : Nat) : PooledConnection :=
  { connId := cid, inUse := false, lastUsed := now, connected := false }

/-- The connection with id `cid` right after `connection.connect()`
succeeded and `markInUse()` ran (printer-pool.ts lines 287-288):
socket connected, `inUse = true`, `lastUsed` = time of `markInUse`. -/
def connectedInUse (cid now : Nat) : PooledConnection :=
  { connId := cid, inUse := true, lastUsed := now, connected := true }

/-- The reuse path of `acquireConnection` (printer-pool.ts lines
266-273): `pool.find((conn) => conn.isAvailable())` and, on the found
object, `markInUse()` — i.e. the first available element of the array
is marked in use, the rest is untouched. -/
def markFirstAvailable (now : Nat) : Entry → Entry
  | [] => []
  | c :: rest =>
    if isAvailable c then markInUse now c :: rest
    else c :: markFirstAvailable now rest

/-- The connection `acquireConnection`'s reuse path returns: the first
available element, after `markInUse()` ran on it. -/
def acquiredConn (now : Nat) (pool : Entry) : Option PooledConnection :=
  (pool.find? isAvailable).map (markInUse now)

/-- `release()` invoked through a caller-held reference, located here
by connection id (connection ids are unique in a run). -/
def releaseById (cid now : Nat) (pool : Entry) : Entry :=
  pool.map (fun c => if c.connId = cid then release now c else c)

/-- One atomic mutation of a pool entry, as performed by the pool's
code between suspension points (single-threaded event loop, so any
interleaving of concurrent `acquire`/`release`/cleanup calls is a
sequence of these steps):
* `reuseMark` — reuse path / wait-loop hit: mark the first available
  connection in use (printer-pool.ts lines 267-272 and 314-319);
* `createPush` — `pool.push(pooledConnection)` before `await
  connection.connect()`, guarded by `pool.length <
  this.maxConnectionsPerPrinter` and by no available connection
  (lines 276-284);
* `connectSuccess` — the pushed connection's socket connects and
  `markInUse()` runs (lines 287-288);
* `connectFailRemove` — connect failed: the pushed connection is
  spliced out of the array (lines 291-297);
* `releaseStep` — a holder calls `release()` (lines 122-125);
* `cleanupStep` — one pass of `cleanupIdleConnections` over the entry
  (lines 328-352). -/
inductive EntryStep (maxConns : Nat) : Entry → Entry → Prop
  | reuseMark (t : Nat) (pool : Entry) (h : pool.any isAvailable = true) :
      EntryStep maxConns pool (markFirstAvailable t pool)
  | createPush (cid t : Nat) (pool : Entry)
      (hroom : pool.length < maxConns)
      (hnone : pool.any isAvailable = false) :
      EntryStep maxConns pool (pool ++ [newPooled cid t])
  | connectSuccess (cid t : Nat) (pool : Entry) :
      EntryStep maxConns pool
        (pool.map (fun c => if c.connId = cid then connectedInUse cid t else c))
  | connectFailRemove (cid : Nat) (pool : Entry) :
      EntryStep maxConns pool (pool.filter (fun c => c.connId ≠ cid))
  | releaseStep (cid t : Nat) (pool : Entry) :
      EntryStep maxConns pool (releaseById cid t pool)
  | cleanupStep (now idle : Nat) (pool : Entry) :
      EntryStep maxConns pool
        (pool.filter (fun c => !(isAvailable c && decide (idle < now - c.lastUsed))))

/-- One pass of `cleanupIdleConnections` over one entry (printer-pool.ts
lines 333-343): a connection is kept (pushed onto `activeConnections`)
unless `conn.isAvailable() && now - conn.lastUsed > this.maxIdleTime`;
the ones not kept are closed. -/
def cleanupEntry (now idle : Nat) (pool : Entry) : Entry :=
  pool.filter (fun c => !(isAvailable c && decide (idle < now - c.lastUsed)))

/-- One pass of `cleanupIdleConnections` over the whole pool map
(printer-pool.ts lines 328-352): every entry is rebuilt from its
surviving connections; an entry left with zero connections is deleted
from the map, otherwise it is overwritten with the survivors. -/
def cleanupPools (now idle : Nat) (pools : List (String × Entry)) :
    List (String × Entry) :=
  pools.filterMap (fun kv =>
    let active := cleanupEntry now idle kv.2
    if active.isEmpty then none else some (kv.1, active))

/-- The per-printer record of `getStats()` (printer-pool.ts
lines 376-387). -/
structure PoolStatEntry where
  printer : String
  connections : Nat
  available : Nat
  inUse : Nat
  deriving DecidableEq, Repr

/-- The record returned by `getStats()` (printer-pool.ts
lines 357-394). -/
structure PoolStats where
  totalPools : Nat
  totalConnections : Nat
  pools : List PoolStatEntry
  deriving DecidableEq, Repr

/-- The per-entry computation inside `getStats()` (lines 377-386):
`available = pool.filter((conn) => conn.isAvailable()).length`,
`inUse = pool.length - available`. -/
def entryStat (k : String) (pool : Entry) : PoolStatEntry :=
  let available := (pool.filter isAvailable).length
  { printer := k
    connections := pool.length
    available := available
    inUse := pool.length - available }

/-- `getStats()` (printer-pool.ts lines 357-394): iterates the map,
accumulating `totalConnections += pool.length` and pushing one
`PoolStatEntry` per key. -/
def getStats (pools : List (String × Entry)) : PoolStats :=
  { totalPools := pools.length
    totalConnections := pools.foldl (fun acc kv => acc + kv.2.length) 0
    pools := pools.map (fun kv => entryStat kv.1 kv.2) }

/-- Source constant: the wait timeout of `waitForAvailableConnection`
(printer-pool.ts line 311), in milliseconds. -/
def waitTimeoutMs : Nat := 10000

/-- Source constant: the polling interval of
`waitForAvailableConnection` (printer-pool.ts line 321). -/
def checkIntervalMs : Nat := 100

/-- Observable outcome of one `waitForAvailableConnection` call over a
finite observation window. -/
structure WaitOutcome where
  /-- the promise resolved with a connection before the timeout -/
  resolved : Bool
  /-- the promise rejected with the pool-timeout error -/
  rejectedTimeout : Bool
  /-- how many interval callbacks still ran after the rejection -/
  polledAfterReject : Nat
  /-- a connection was marked `inUse` by a callback that ran after the
  promise had already rejected -/
  markedAfterReject : Bool
  deriving DecidableEq, Repr

/-- What the interval callback of `waitForAvailableConnection` does
once the timeout has already rejected the promise (printer-pool.ts
lines 309-322): the timeout handler rejects without calling
`clearInterval(checkInterval)`, so the interval keeps firing; the
first callback that finds an available connection still runs
`clearTimeout`, `clearInterval`, `available.markInUse()` and a (now
ineffective) `resolve`.  Input: availability at each subsequent tick.
Output: (number of callbacks that ran, whether one marked a
connection in use). -/
def runWaitAfterReject : List Bool → Nat × Bool
  | [] => (0, false)
  | b :: rest =>
    if b then (1, true)
    else
      let r := runWaitAfterReject rest
      (r.1 + 1, r.2)

/-- `waitForAvailableConnection` (printer-pool.ts lines 304-323) over a
finite window.  `timeoutTicks` is how many interval callbacks run
before the timeout deadline (`waitTimeoutMs / checkIntervalMs` in the
source); `polls.get! i` is whether `pool.find((conn) =>
conn.isAvailable())` finds a connection at the `i`-th interval tick.
Before the timeout, a successful poll clears both timers, marks the
connection in use and resolves.  At the deadline the timeout handler
rejects — and only rejects: the interval is not cleared, so polling
continues as modelled by `runWaitAfterReject`. -/
def runWait : Nat → List Bool → WaitOutcome
  | 0, rest =>
    let r := runWaitAfterReject rest
    { resolved := false
      rejectedTimeout := true
      polledAfterReject := r.1
      markedAfterReject := r.2 }
  | _ + 1, [] =>
    { resolved := false
      rejectedTimeout := false
      polledAfterReject := 0
      markedAfterReject := false }
  | t + 1, b :: rest =>
    if b then
      { resolved := true
        rejectedTimeout := false
        polledAfterReject := 0
        markedAfterReject := false }
    else runWait t rest

/-- Environment of one `printToPrinter` send (printer.ts lines
531-566): whether `connection.send(data)` succeeded, and whether the
socket still reports `isConnected()` afterwards (a write error may or
may not have destroyed the socket). -/
structure PrintAttempt where
  sendOk : Bool
  connAfterSend : Bool
  deriving DecidableEq, Repr

/-- The effect of one `printToPrinter` call on a pool entry that has an
available connection (printer.ts lines 539-566 composed with the reuse
path of `acquireConnection`): the first available connection is marked
in use at `t₁`, the send leaves its socket in state `a.connAfterSend`,
and on BOTH the success path (line 548) and the catch path (line 556)
`pooledConnection.release()` runs at `t₂`.  Nothing is ever closed or
removed from the entry by this function. -/
def printOnFirstAvailable (t₁ t₂ : Nat) (a : PrintAttempt) : Entry → Entry
  | [] => []
  | c :: rest =>
    if isAvailable c then
      release t₂ { markInUse t₁ c with connected := a.connAfterSend } :: rest
    else c :: printOnFirstAvailable t₁ t₂ a rest

/-- `printToPrinter` restricted to the reuse path of the pool: returns
the entry after the call together with the success flag (`true` iff
the send succeeded; on failure the error is rethrown to the caller
after the release).  When no connection is available the other acquire
paths run instead and the entry is returned unchanged here. -/
def printToPrinterEntry (t₁ t₂ : Nat) (a : PrintAttempt) (pool : Entry) :
    Entry × Bool :=
  if pool.any isAvailable then (printOnFirstAvailable t₁ t₂ a pool, a.sendOk)
  else (pool, false)

/-- The fields of `PcAgentClient` (part_005 lines 14-26) that the
reconnect logic reads and writes. -/
structure AgentState where
  reconnectAttempts : Nat
  maxReconnectAttempts : Nat
  reconnectDelay : Nat
  hasReconnectTimer : Bool
  status : String
  deriving DecidableEq, Repr

/-- `scheduleReconnect()` (part_005 lines 242-267): clears any pending
timer; if `reconnectAttempts >= maxReconnectAttempts`, sets the state
service status to `"error"` and returns without scheduling; otherwise
arms a timer for `reconnectDelay * Math.pow(2, reconnectAttempts)`
milliseconds.  Returns the new state and the delay of the scheduled
timer (`none` when nothing was scheduled). -/
def scheduleReconnect (s : AgentState) : AgentState × Option Nat :=
  if s.maxReconnectAttempts ≤ s.reconnectAttempts then
    ({ s with hasReconnectTimer := false, status := "error" }, none)
  else
    ({ s with hasReconnectTimer := true },
      some (s.reconnectDelay * 2 ^ s.reconnectAttempts))

/-- `DEFAULT_CONFIG.PRINTER_IP` (constants.ts line 12). -/
def defaultPrinterIp : String := "192.168.1.100"

/-- `DEFAULT_CONFIG.PRINTER_PORT` (constants.ts line 13). -/
def defaultPrinterPort : Nat := 9100

/-- JavaScript `parseInt(s, 10)` restricted to what the agent feeds it:
the leading decimal digits of the string, `none` when there are none
(`NaN`). -/
def parseLeadingDecimal (s : String) : Option Nat :=
  let digits := s.toList.takeWhile Char.isDigit
  if digits.isEmpty then none
  else some (digits.foldl (fun n c => n * 10 + (c.toNat - 48)) 0)

/-- Target IP resolution of `handlePrintJob` (part_005 line 196):
`process.env.PRINTER_IP || DEFAULT_CONFIG.PRINTER_IP`. -/
def targetPrinterIp (envIp : Option String) : String :=
  envIp.getD defaultPrinterIp

/-- Target port resolution of `handlePrintJob` (part_005 line 197):
`parseInt(process.env.PRINTER_PORT || String(DEFAULT_CONFIG.PRINTER_PORT), 10)`. -/
def targetPrinterPort (envPort : Option String) : Option Nat :=
  parseLeadingDecimal (envPort.getD (toString defaultPrinterPort))

/-- The job-dispatch event payload `pc-agent:print-job` as declared at
the subscription site (part_005 lines 105-111); `printerIp` and
`printerPort` are carried by the wire message. -/
structure PrintJobData where
  jobId : String
  text : String
  format : String
  printerIp : Option String
  printerPort : Option Nat
  deriving DecidableEq, Repr

/-- One `pc-agent:print-result` event (part_005 lines 209-213 and
231-235). -/
structure PrintResult where
  jobId : String
  success : Bool
  message : String
  deriving DecidableEq, Repr

/-- The `printJobCounters` field of `StateService` (state.service.ts,
staged in `src/QUICK_REFERENCE.md` lines 194-449 after the document
separator): `{total, successful, failed}`, each starting at 0. -/
structure PrintJobCounters where
  total : Nat
  successful : Nat
  failed : Nat
  deriving DecidableEq, Repr

/-- `StateService.recordPrintJob(success)` (state.service.ts, staged
in `src/QUICK_REFERENCE.md`, lines 373-381 of that file): increments
`printJobCounters.total`, then `successful` when `success` is true,
else `failed`; so each call records exactly one outcome. -/
def recordPrintJob (success : Bool) (s : PrintJobCounters) : PrintJobCounters :=
  let s := { s with total := s.total + 1 }
  if success then { s with successful := s.successful + 1 }
  else { s with failed := s.failed + 1 }

/-- The counters after a sequence of `recordPrintJob` calls, in call
order. -/
def recordAll (calls : List Bool) (s : PrintJobCounters) : PrintJobCounters :=
  calls.foldl (fun st b => recordPrintJob b st) s

/-- The externally observable effects of one `handlePrintJob` call. -/
structure JobEffects where
  /-- the arguments of the `stateService.recordPrintJob` calls made by
  the handler, in call order (part_005 lines 200, 206 and 222) -/
  recorded : List Bool
  /-- the `pc-agent:print-result` events emitted, in order -/
  results : List PrintResult
  /-- the `(ip, port)` passed to `printToPrinter`, when it was called -/
  sendTarget : Option (String × Option Nat)
  deriving DecidableEq, Repr

/-- `handlePrintJob` (part_005 lines 174-237).  The handler
destructures only `{jobId, text, format}` from the event.  In the try
block: if `format === 'base64'` the text is decoded, the target is
resolved from the environment/defaults, `recordPrintJob(true)` runs,
`printToPrinter` runs (outcome `printOk`, error message `errMsg` on
failure), then `recordPrintJob(true)` runs AGAIN and a success result
is emitted; any throw lands in the catch block, which runs
`recordPrintJob(false)` and emits a failure result.  Both emits go
through `this.socket?.emit`, so they are skipped when the socket field
has been cleared (`sockPresent = false`). -/
def handlePrintJob (envIp envPort : Option String) (sockPresent : Bool)
    (printOk : Bool) (errMsg : String) (d : PrintJobData) : JobEffects :=
  if d.format = "base64" then
    let tgt := (targetPrinterIp envIp, targetPrinterPort envPort)
    if printOk then
      { recorded := [true, true]
        results :=
          if sockPresent then
            [{ jobId := d.jobId, success := true
               message := "Print job sent successfully" }]
          else []
        sendTarget := some tgt }
    else
      { recorded := [true, false]
        results :=
          if sockPresent then
            [{ jobId := d.jobId, success := false
               message := "Print job failed: " ++ errMsg }]
          else []
        sendTarget := some tgt }
  else
    { recorded := [false]
      results :=
        if sockPresent then
          [{ jobId := d.jobId, success := false
             message := "Print job failed: Unsupported format: " ++ d.format }]
        else []
      sendTarget := none }

end Veasyo

namespace Veasyo

open PooledConnection

theorem foldl_add_length (ps : List (String × Entry)) (acc : Nat) :
    ps.foldl (fun a kv => a + kv.2.length) acc
      = acc + (ps.map (fun kv => kv.2.length)).sum := by
  induction ps generalizing acc with
  | nil => simp
  | cons kv rest ih => simp [List.foldl_cons, ih, Nat.add_assoc]

theorem length_filter_add_not {α : Type} (p : α → Bool) (l : List α) :
    (l.filter p).length + (l.filter (fun a => !(p a))).length = l.length := by
  induction l with
  | nil => rfl
  | cons x xs ih =>
    by_cases h : p x <;> simp [List.filter_cons, h] <;> omega

/-- Claim C9: for every endpoint key, the snapshot returned by
`getStats()` satisfies `inUse + available == connections`, the global
`totalConnections` equals the sum of the per-endpoint `connections`,
and every connection is counted in exactly one of the two buckets:
`available` counts exactly the `isAvailable()` connections and `inUse`
exactly the others. -/
theorem getStats_consistency (pools : List (String × Entry)) :
    (∀ s ∈ (getStats pools).pools, s.inUse + s.available = s.connections) ∧
    (getStats pools).totalConnections
      = ((getStats pools).pools.map PoolStatEntry.connections).sum ∧
    (∀ kv ∈ pools,
      (entryStat kv.1 kv.2).available = (kv.2.filter isAvailable).length ∧
      (entryStat kv.1 kv.2).inUse
        = (kv.2.filter (fun c => !(isAvailable c))).length) := by
  refine ⟨?_, ?_, ?_⟩
  · intro s hs
    simp only [getStats, List.mem_map] at hs
    obtain ⟨kv, _, rfl⟩ := hs
    have hle : (kv.2.filter isAvailable).length ≤ kv.2.length :=
      List.length_filter_le _ _
    simp only [entryStat]
    omega
  · simp only [getStats, foldl_add_length, Nat.zero_add, List.map_map]
    congr 1
  · intro kv _
    have h := length_filter_add_not isAvailable kv.2
    constructor
    · rfl
    · simp only [entryStat]
      omega

/-- Claim C9 witness: instantiation at a concrete two-entry pool map,
one connection in use and one available. -/
theorem getStats_consistency_witness :
    (entryStat "10.0.0.8:9100"
        [{ connId := 1, inUse := true, lastUsed := 0, connected := true },
         { connId := 2, inUse := false, lastUsed := 0, connected := true }]).inUse
      + (entryStat "10.0.0.8:9100"
        [{ connId := 1, inUse := true, lastUsed := 0, connected := true },
         { connId := 2, inUse := false, lastUsed := 0, connected := true }]).available
      = (entryStat "10.0.0.8:9100"
        [{ connId := 1, inUse := true, lastUsed := 0, connected := true },
         { connId := 2, inUse := false, lastUsed := 0, connected := true }]).connections :=
  (getStats_consistency
      [("10.0.0.8:9100",
        [{ connId := 1, inUse := true, lastUsed := 0, connected := true },
         { connId := 2, inUse := false, lastUsed := 0, connected := true }])]).1
    _ (by simp [getStats])

/-- Claim C2 counterexample: with the constructor defaults
(`reconnectDelay = 1000`, `maxReconnectAttempts = 10`) and the
library option `reconnectionDelayMax = 30000` in the same file, at
`reconnectAttempts = 5` the timer `scheduleReconnect` arms is
`1000 * 2 ^ 5 = 32000` ms, whereas the claimed
`min(baseDelay * 2 ^ attempt, maxDelay)` is `30000` ms: the manual
reconnect path applies no `maxDelay` cap. -/
theorem scheduleReconnect_backoff_counterexample :
    (scheduleReconnect
      { reconnectAttempts := 5, maxReconnectAttempts := 10,
        reconnectDelay := 1000, hasReconnectTimer := false,
        status := "stopped" }).2 = some 32000
    ∧ min (1000 * 2 ^ 5) 30000 = 30000
    ∧ (32000 : Nat) ≠ 30000 := by
  refine ⟨rfl, by decide, by decide⟩

/-- Claim C2 (amended): after a non-manual disconnect, while
`reconnectAttempts < maxReconnectAttempts` the wait before the next
connection attempt equals `reconnectDelay * 2 ^ reconnectAttempts`
with no upper cap (the 30 s `reconnectionDelayMax` applies only to the
transport library's own retry options, not to this manual path), so it
strictly doubles with each attempt; once `reconnectAttempts` reaches
`maxReconnectAttempts`, the status becomes `"error"` and no further
attempt is scheduled. -/
theorem scheduleReconnect_backoff_amended (s : AgentState) :
    (s.reconnectAttempts < s.maxReconnectAttempts →
      (scheduleReconnect s).2
          = some (s.reconnectDelay * 2 ^ s.reconnectAttempts)
        ∧ (scheduleReconnect s).1.hasReconnectTimer = true
        ∧ (scheduleReconnect s).1.status = s.status
        ∧ s.reconnectDelay * 2 ^ (s.reconnectAttempts + 1)
            = 2 * (s.reconnectDelay * 2 ^ s.reconnectAttempts))
    ∧ (s.maxReconnectAttempts ≤ s.reconnectAttempts →
      (scheduleReconnect s).2 = none
        ∧ (scheduleReconnect s).1.status = "error"
        ∧ (scheduleReconnect s).1.hasReconnectTimer = false) := by
  constructor
  · intro h
    have hnot : ¬ s.maxReconnectAttempts ≤ s.reconnectAttempts :=
      Nat.not_le.mpr h
    refine ⟨?_, ?_, ?_, ?_⟩
    · simp [scheduleReconnect, hnot]
    · simp [scheduleReconnect, hnot]
    · simp [scheduleReconnect, hnot]
    · ring
  · intro h
    refine ⟨?_, ?_, ?_⟩ <;> simp [scheduleReconnect, h]

/-- Claim C2 witness: the amended statement applied at a concrete
state below the attempt cap, and at one that has reached it. -/
theorem scheduleReconnect_backoff_amended_witness :
    ((scheduleReconnect
        { reconnectAttempts := 3, maxReconnectAttempts := 10,
          reconnectDelay := 1000, hasReconnectTimer := true,
          status := "stopped" }).2 = some (1000 * 2 ^ 3)
      ∧ (scheduleReconnect
        { reconnectAttempts := 3, maxReconnectAttempts := 10,
          reconnectDelay := 1000, hasReconnectTimer := true,
          status := "stopped" }).1.hasReconnectTimer = true
      ∧ (scheduleReconnect
        { reconnectAttempts := 3, maxReconnectAttempts := 10,
          reconnectDelay := 1000, hasReconnectTimer := true,
          status := "stopped" }).1.status = "stopped"
      ∧ 1000 * 2 ^ (3 + 1) = 2 * (1000 * 2 ^ 3))
    ∧ ((scheduleReconnect
        { reconnectAttempts := 10, maxReconnectAttempts := 10,
          reconnectDelay := 1000, hasReconnectTimer := true,
          status := "stopped" }).2 = none
      ∧ (scheduleReconnect
        { reconnectAttempts := 10, maxReconnectAttempts := 10,
          reconnectDelay := 1000, hasReconnectTimer := true,
          status := "stopped" }).1.status = "error"
      ∧ (scheduleReconnect
        { reconnectAttempts := 10, maxReconnectAttempts := 10,
          reconnectDelay := 1000, hasReconnectTimer := true,
          status := "stopped" }).1.hasReconnectTimer = false) :=
  ⟨(scheduleReconnect_backoff_amended
      { reconnectAttempts := 3, maxReconnectAttempts := 10,
        reconnectDelay := 1000, hasReconnectTimer := true,
        status := "stopped" }).1 (by decide),
   (scheduleReconnect_backoff_amended
      { reconnectAttempts := 10, maxReconnectAttempts := 10,
        reconnectDelay := 1000, hasReconnectTimer := true,
        status := "stopped" }).2 (by decide)⟩

/-- Claim C3: evaluation of the wait loop at the failing input.  With
a timeout deadline after 2 polls and availability history
`[false, false, true]` (no connection becomes available before the
timeout, one is released at the next tick after it), the call rejects
with the pool timeout — but one more interval callback runs after the
rejection and it marks the newly available connection `inUse` for the
already-failed call, because the timeout handler never calls
`clearInterval`.  The same happens with the source constants
(`waitTimeoutMs / checkIntervalMs = 100` polls before the deadline). -/
theorem waitForAvailableConnection_pollsAfterTimeout :
    runWait 2 [false, false, true]
      = { resolved := false, rejectedTimeout := true,
          polledAfterReject := 1, markedAfterReject := true }
    ∧ runWait (waitTimeoutMs / checkIntervalMs)
        (List.replicate (waitTimeoutMs / checkIntervalMs) false ++ [true])
      = { resolved := false, rejectedTimeout := true,
          polledAfterReject := 1, markedAfterReject := true } := by
  refine ⟨by decide, by decide⟩

/-- Claim C4: evaluation of `handlePrintJob` at the failing input.  On
a remote-dispatched job that completes successfully (base64 payload,
send succeeds), the handler calls `stateService.recordPrintJob(true)`
TWICE — before the send (part_005 line 200) and again after it (line
206) — and each call increments `printJobCounters.total` and
`successful` once (state.service.ts), so the job statistics record two
outcomes for the one job instead of the single outcome the claim
requires: starting from zero counters, one successful job leaves
`total = 2, successful = 2`. -/
theorem handlePrintJob_doubleRecord :
    (handlePrintJob none none true true ""
      { jobId := "abc", text := "SGVsbG8=", format := "base64",
        printerIp := none, printerPort := none }).recorded = [true, true]
    ∧ recordAll
        ((handlePrintJob none none true true ""
          { jobId := "abc", text := "SGVsbG8=", format := "base64",
            printerIp := none, printerPort := none }).recorded)
        { total := 0, successful := 0, failed := 0 }
      = { total := 2, successful := 2, failed := 0 }
    ∧ (2 : Nat) ≠ 1 := by
  refine ⟨rfl, rfl, by decide⟩

/-- Claim C10: `handlePrintJob` resolves the target endpoint only from
`process.env.PRINTER_IP` / `PRINTER_PORT` and `DEFAULT_CONFIG`; the
`printerIp` and `printerPort` fields carried by the dispatch message
are ignored — the effects of the handler are identical whatever those
fields hold, and whenever `printToPrinter` is called its target is the
environment-resolved one. -/
theorem handlePrintJob_ignores_message_endpoint :
    (∀ (envIp envPort : Option String) (sock ok : Bool) (err : String)
        (jobId text format : String) (ip : Option String) (port : Option Nat),
      handlePrintJob envIp envPort sock ok err
          { jobId := jobId, text := text, format := format,
            printerIp := ip, printerPort := port }
        = handlePrintJob envIp envPort sock ok err
          { jobId := jobId, text := text, format := format,
            printerIp := none, printerPort := none })
    ∧ (∀ (envIp envPort : Option String) (sock ok : Bool) (err : String)
        (d : PrintJobData) (tgt : String × Option Nat),
      (handlePrintJob envIp envPort sock ok err d).sendTarget = some tgt →
      tgt = (targetPrinterIp envIp, targetPrinterPort envPort)) := by
  constructor
  · intro envIp envPort sock ok err jobId text format ip port
    rfl
  · intro envIp envPort sock ok err d tgt h
    by_cases hf : d.format = "base64"
    · by_cases hk : ok = true <;>
        simp_all [handlePrintJob]
    · simp [handlePrintJob, hf] at h

/-- Claim C10 witness: with `PRINTER_IP=192.168.50.5` in the
environment and no `PRINTER_PORT`, a job carrying
`printerIp = 10.0.0.9, printerPort = 631` is still sent to
`(192.168.50.5, 9100)`. -/
theorem handlePrintJob_ignores_message_endpoint_witness :
    ("192.168.50.5", some 9100)
      = (targetPrinterIp (some "192.168.50.5"), targetPrinterPort none) :=
  handlePrintJob_ignores_message_endpoint.2 (some "192.168.50.5") none true true ""
    { jobId := "j1", text := "AA==", format := "base64",
      printerIp := some "10.0.0.9", printerPort := some 631 }
    ("192.168.50.5", some 9100) (by decide)

end Veasyo

namespace Veasyo

open PooledConnection

theorem length_markFirstAvailable (t : Nat) (pool : Entry) :
    (markFirstAvailable t pool).length = pool.length := by
  induction pool with
  | nil => rfl
  | cons x xs ih =>
    by_cases hx : isAvailable x <;> simp [markFirstAvailable, hx, ih]

theorem markFirstAvailable_spec (t : Nat) (pool : Entry)
    (h : pool.any isAvailable = true) :
    ∃ l₁ c l₂, pool = l₁ ++ c :: l₂
      ∧ (∀ c' ∈ l₁, isAvailable c' = false)
      ∧ isAvailable c = true
      ∧ markFirstAvailable t pool = l₁ ++ markInUse t c :: l₂
      ∧ pool.find? isAvailable = some c := by
  induction pool with
  | nil => simp at h
  | cons x xs ih =>
    by_cases hx : isAvailable x = true
    · refine ⟨[], x, xs, rfl, by simp, hx, ?_, ?_⟩
      · simp [markFirstAvailable, hx]
      · simp [List.find?_cons_of_pos _ hx]
    · have hxs : xs.any isAvailable = true := by
        simpa [List.any_cons, hx] using h
      obtain ⟨l₁, c, l₂, hdecomp, hl₁, hc, hm, hf⟩ := ih hxs
      refine ⟨x :: l₁, c, l₂, by rw [hdecomp, List.cons_append], ?_, hc, ?_, ?_⟩
      · intro c' hc'
        rcases List.mem_cons.mp hc' with h1 | h2
        · subst h1; exact Bool.eq_false_iff.mpr hx
        · exact hl₁ c' h2
      · have hx' : isAvailable x = false := Bool.eq_false_iff.mpr hx
        simp [markFirstAvailable, hx', hm]
      · simp [List.find?_cons_of_neg _ hx, hf]

theorem printOnFirstAvailable_spec (t₁ t₂ : Nat) (a : PrintAttempt)
    (pool : Entry) (h : pool.any isAvailable = true) :
    ∃ l₁ c l₂, pool = l₁ ++ c :: l₂
      ∧ (∀ c' ∈ l₁, isAvailable c' = false)
      ∧ isAvailable c = true
      ∧ printOnFirstAvailable t₁ t₂ a pool
          = l₁ ++ release t₂ { markInUse t₁ c with connected := a.connAfterSend } :: l₂ := by
  induction pool with
  | nil => simp at h
  | cons x xs ih =>
    by_cases hx : isAvailable x = true
    · refine ⟨[], x, xs, rfl, by simp, hx, ?_⟩
      simp [printOnFirstAvailable, hx]
    · have hxs : xs.any isAvailable = true := by
        simpa [List.any_cons, hx] using h
      obtain ⟨l₁, c, l₂, hdecomp, hl₁, hc, hm⟩ := ih hxs
      refine ⟨x :: l₁, c, l₂, by rw [hdecomp, List.cons_append], ?_, hc, ?_⟩
      · intro c' hc'
        rcases List.mem_cons.mp hc' with h1 | h2
        · subst h1; exact Bool.eq_false_iff.mpr hx
        · exact hl₁ c' h2
      · have hx' : isAvailable x = false := Bool.eq_false_iff.mpr hx
        simp [printOnFirstAvailable, hx', hm]

/-- Claim C5 counterexample: with an empty entry and a cap of 5,
`acquireConnection` pushes the new connection into the entry BEFORE
awaiting `connection.connect()` (the `createPush` step), so at that
observable point the connection that is about to fail its connect IS
in the entry and counts against the cap; only after the failure is it
spliced out.  This refutes "a connection whose connect fails during
acquisition is not inserted into the entry". -/
theorem acquire_failedConnect_inserted_counterexample :
    EntryStep 5 [] [newPooled 1 0]
    ∧ newPooled 1 0 ∈ [newPooled 1 0]
    ∧ (newPooled 1 0).connected = false
    ∧ [newPooled 1 0].filter (fun c => c.connId ≠ 1) = [] := by
  refine ⟨EntryStep.createPush 1 0 [] (by decide) rfl, by decide, rfl, by decide⟩

/-- Claim C5 (amended): every atomic mutation the pool code performs
on an entry preserves `count(entry) ≤ maxConnectionsPerEndpoint`
(hence the cap holds at every observable point under any interleaving
of concurrent acquirers, since the runtime is a single-threaded event
loop and each of these steps runs without suspension); a connection
whose connect fails is inserted into the entry during the connect
attempt — counting against the cap while the connect is pending — and
is removed again by the failure handler, so after the failed acquire
completes the entry no longer contains it. -/
theorem acquire_cap_invariant_amended :
    (∀ (maxConns : Nat) (e e' : Entry), EntryStep maxConns e e' →
      e.length ≤ maxConns → e'.length ≤ maxConns)
    ∧ (∀ (cid : Nat) (pool : Entry) (c : PooledConnection),
        c ∈ pool.filter (fun c => c.connId ≠ cid) → c.connId ≠ cid) := by
  constructor
  · intro maxConns e e' hstep hle
    cases hstep with
    | reuseMark t pool h => simpa [length_markFirstAvailable] using hle
    | createPush cid t pool hroom hnone =>
      simpa [List.length_append] using hroom
    | connectSuccess cid t pool => simpa using hle
    | connectFailRemove cid pool =>
      exact le_trans (List.length_filter_le _ _) hle
    | releaseStep cid t pool => simpa [releaseById] using hle
    | cleanupStep now idle pool =>
      exact le_trans (List.length_filter_le _ _) hle
  · intro cid pool c hc
    simpa using (List.mem_filter.mp hc).2

/-- Claim C5 witness: the cap-preservation part applied to the
`createPush` step from the empty entry with cap 5. -/
theorem acquire_cap_invariant_amended_witness :
    ([newPooled 9 0] : Entry).length ≤ 5 :=
  acquire_cap_invariant_amended.1 5 [] ([] ++ [newPooled 9 0])
    (EntryStep.createPush 9 0 [] (by decide) rfl) (by decide)

/-- Claim C6 counterexample: an entry holds connection 1 (Idle and
healthy) and connection 2 (InUse).  Connection 2 is released while
still healthy; the immediately following acquire returns connection 1
— the first available element of the array — not the just-released
connection 2.  So "release followed immediately by acquire returns
the same underlying connection" fails whenever an earlier Idle+healthy
connection exists. -/
theorem acquire_reuse_not_same_connection_counterexample :
    (acquiredConn 2 (releaseById 2 1
        [{ connId := 1, inUse := false, lastUsed := 0, connected := true },
         { connId := 2, inUse := true, lastUsed := 0, connected := true }])).map
      PooledConnection.connId = some 1
    ∧ (1 : Nat) ≠ 2 := by
  refine ⟨rfl, by decide⟩

/-- Claim C6 (amended): an acquire on an entry holding at least one
Idle and healthy connection marks the FIRST such connection InUse,
updates its `lastUsed`, and returns it without creating a new socket
(the entry's length is unchanged); consequently a release of a
still-healthy connection followed immediately by an acquire for the
same endpoint returns that same underlying connection exactly when no
Idle+healthy connection precedes it in the entry — in particular when
it is the entry's only connection. -/
theorem acquire_reuse_first_available_amended :
    (∀ (t : Nat) (pool : Entry), pool.any isAvailable = true →
      ∃ l₁ c l₂, pool = l₁ ++ c :: l₂
        ∧ (∀ c' ∈ l₁, isAvailable c' = false)
        ∧ isAvailable c = true
        ∧ acquiredConn t pool = some (markInUse t c)
        ∧ (markInUse t c).inUse = true
        ∧ (markInUse t c).lastUsed = t
        ∧ (markInUse t c).connId = c.connId
        ∧ markFirstAvailable t pool = l₁ ++ markInUse t c :: l₂
        ∧ (markFirstAvailable t pool).length = pool.length)
    ∧ (∀ (cid t₁ t₂ : Nat) (c : PooledConnection),
        c.connId = cid → c.connected = true →
        (acquiredConn t₂ (releaseById cid t₁ [c])).map
          PooledConnection.connId = some cid) := by
  constructor
  · intro t pool h
    obtain ⟨l₁, c, l₂, hdecomp, hl₁, hc, hm, hf⟩ := markFirstAvailable_spec t pool h
    exact ⟨l₁, c, l₂, hdecomp, hl₁, hc, by simp [acquiredConn, hf],
      rfl, rfl, rfl, hm, length_markFirstAvailable t pool⟩
  · intro cid t₁ t₂ c hid hconn
    have havail : isAvailable (release t₁ c) = true := by
      simp [isAvailable, release, hconn]
    simp [releaseById, acquiredConn, hid,
      List.find?_cons_of_pos _ havail, markInUse, release, isAvailable, hconn]

/-- Claim C6 witness: releasing the only (healthy) connection of an
entry and acquiring again returns the same underlying connection. -/
theorem acquire_reuse_first_available_amended_witness :
    (acquiredConn 5 (releaseById 3 4
        [{ connId := 3, inUse := true, lastUsed := 0, connected := true }])).map
      PooledConnection.connId = some 3 :=
  acquire_reuse_first_available_amended.2 3 4 5
    { connId := 3, inUse := true, lastUsed := 0, connected := true } rfl rfl

/-- Claim C7 counterexample: a connection that is Idle
(`inUse = false`) but whose socket has died (`connected = false`),
with age `40000 − 0` far beyond the 30000 ms idle timeout, is NOT
removed by `cleanupIdleConnections`: the removal test is
`conn.isAvailable() && age > maxIdleTime` and `isAvailable()` is false
for a dead socket, so the connection is kept and its entry survives —
refuting "every Idle connection whose age exceeds idleTimeoutMs has
been closed and removed". -/
theorem cleanup_keeps_dead_idle_counterexample :
    cleanupEntry 40000 30000
        [{ connId := 1, inUse := false, lastUsed := 0, connected := false }]
      = [{ connId := 1, inUse := false, lastUsed := 0, connected := false }]
    ∧ ({ connId := 1, inUse := false, lastUsed := 0,
         connected := false } : PooledConnection).inUse = false
    ∧ 30000 < 40000 -
        ({ connId := 1, inUse := false, lastUsed := 0,
           connected := false } : PooledConnection).lastUsed
    ∧ cleanupPools 40000 30000
        [("10.0.0.8:9100",
          [{ connId := 1, inUse := false, lastUsed := 0, connected := false }])]
      = [("10.0.0.8:9100",
          [{ connId := 1, inUse := false, lastUsed := 0, connected := false }])] := by
  refine ⟨rfl, rfl, by decide, by decide⟩

/-- Claim C7 (amended): after a run of background reclamation, a
connection survives in its entry exactly when it was there before and
was not both available (Idle AND with a live socket) and older than
`idleTimeoutMs` — so every Idle-and-healthy connection whose age
exceeds the timeout has been closed and removed, and is therefore
absent from the next `stats()` call, while an Idle connection whose
socket already died is kept; and every entry left with zero
connections is dropped from the pool map rather than kept empty. -/
theorem cleanup_removes_stale_available_amended :
    (∀ (now idle : Nat) (pool : Entry) (c : PooledConnection),
      c ∈ cleanupEntry now idle pool ↔
        c ∈ pool ∧ ¬(isAvailable c = true ∧ idle < now - c.lastUsed))
    ∧ (∀ (now idle : Nat) (pools : List (String × Entry))
        (k : String) (e : Entry),
        (k, e) ∈ cleanupPools now idle pools →
          e ≠ [] ∧ ∃ e₀, (k, e₀) ∈ pools ∧ e = cleanupEntry now idle e₀) := by
  constructor
  · intro now idle pool c
    constructor
    · intro hc
      have hmem := List.mem_filter.mp hc
      refine ⟨hmem.1, ?_⟩
      intro hbad
      have := hmem.2
      simp [hbad.1, hbad.2] at this
    · intro hc
      refine List.mem_filter.mpr ⟨hc.1, ?_⟩
      by_cases hav : isAvailable c = true
      · have hage : ¬ idle < now - c.lastUsed := fun hlt => hc.2 ⟨hav, hlt⟩
        simp [hav, hage]
      · have hav' : isAvailable c = false := Bool.eq_false_iff.mpr hav
        simp [hav']
  · intro now idle pools k e hmem
    simp only [cleanupPools, List.mem_filterMap] at hmem
    obtain ⟨kv, hkv, hf⟩ := hmem
    by_cases hempty : (cleanupEntry now idle kv.2).isEmpty
    · simp [hempty] at hf
    · simp only [hempty, Bool.false_eq_true, if_false, Option.some.injEq, Prod.mk.injEq] at hf
      obtain ⟨hk, he⟩ := hf
      subst hk
      refine ⟨?_, kv.2, by simpa using hkv, he.symm⟩
      intro hnil
      rw [← he] at hnil
      simp [hnil] at hempty

/-- Claim C7 witness: an entry whose only connection is InUse survives
cleanup unchanged and nonempty. -/
theorem cleanup_removes_stale_available_amended_witness :
    ([{ connId := 2, inUse := true, lastUsed := 0, connected := true }] : Entry)
      ≠ [] :=
  ((cleanup_removes_stale_available_amended.2 40000 30000
      [("10.0.0.8:9100",
        [{ connId := 2, inUse := true, lastUsed := 0, connected := true }])]
      "10.0.0.8:9100"
      [{ connId := 2, inUse := true, lastUsed := 0, connected := true }])
    (by decide)).1

/-- Claim C1 counterexample: entry with one Idle healthy connection
(id 7).  `printToPrinter` acquires it, the send FAILS while the socket
still reports connected, and the catch block runs
`pooledConnection.release()`: the connection ends up back in the entry
Idle and `isAvailable()` — fully reusable — rather than being
discarded (closed), refuting "a DeviceConnection whose send fails
irrecoverably is destroyed and never returned to the pool". -/
theorem printToPrinter_midSendFailure_counterexample :
    printToPrinterEntry 1 2 { sendOk := false, connAfterSend := true }
        [{ connId := 7, inUse := false, lastUsed := 0, connected := true }]
      = ([{ connId := 7, inUse := false, lastUsed := 2, connected := true }],
         false)
    ∧ isAvailable
        { connId := 7, inUse := false, lastUsed := 2, connected := true }
      = true := by
  refine ⟨rfl, rfl⟩

/-- Claim C1 (amended): on a mid-send failure `printToPrinter` does
NOT discard the connection: the catch block calls `release()`, so the
acquired connection stays at its slot in the entry (entry length
unchanged, same `connId`), marked Idle with `lastUsed` updated, and it
is eligible for reuse exactly when its socket still reports connected
— a dead socket is only filtered out later by the `isHealthy` check of
the next acquire, never closed by this path. -/
theorem printToPrinter_midSendFailure_release_amended :
    ∀ (t₁ t₂ : Nat) (a : PrintAttempt) (pool : Entry),
      pool.any isAvailable = true →
      ∃ l₁ c l₂, pool = l₁ ++ c :: l₂
        ∧ isAvailable c = true
        ∧ (printToPrinterEntry t₁ t₂ a pool).2 = a.sendOk
        ∧ (printToPrinterEntry t₁ t₂ a pool).1
            = l₁ ++ release t₂
                { markInUse t₁ c with connected := a.connAfterSend } :: l₂
        ∧ (release t₂
            { markInUse t₁ c with connected := a.connAfterSend }).inUse = false
        ∧ (release t₂
            { markInUse t₁ c with connected := a.connAfterSend }).lastUsed = t₂
        ∧ (release t₂
            { markInUse t₁ c with connected := a.connAfterSend }).connId = c.connId
        ∧ ((printToPrinterEntry t₁ t₂ a pool).1).length = pool.length
        ∧ isAvailable (release t₂
            { markInUse t₁ c with connected := a.connAfterSend })
          = a.connAfterSend := by
  intro t₁ t₂ a pool h
  obtain ⟨l₁, c, l₂, hdecomp, hl₁, hc, hm⟩ :=
    printOnFirstAvailable_spec t₁ t₂ a pool h
  have hentry : (printToPrinterEntry t₁ t₂ a pool).1
      = l₁ ++ release t₂
          { markInUse t₁ c with connected := a.connAfterSend } :: l₂ := by
    simp [printToPrinterEntry, h, hm]
  refine ⟨l₁, c, l₂, hdecomp, hc, ?_, hentry, rfl, rfl, rfl, ?_, ?_⟩
  · simp [printToPrinterEntry, h]
  · rw [hentry, hdecomp]
    simp
  · simp [isAvailable, release]

/-- Claim C1 witness: the amended statement at the entry of the
counterexample — the failed connection is still in the entry
(length preserved). -/
theorem printToPrinter_midSendFailure_release_amended_witness :
    ((printToPrinterEntry 1 2 { sendOk := false, connAfterSend := true }
        [{ connId := 7, inUse := false, lastUsed := 0,
           connected := true }]).1).length
      = ([{ connId := 7, inUse := false, lastUsed := 0,
            connected := true }] : Entry).length := by
  obtain ⟨l₁, c, l₂, hd⟩ :=
    printToPrinter_midSendFailure_release_amended 1 2
      { sendOk := false, connAfterSend := true }
      [{ connId := 7, inUse := false, lastUsed := 0, connected := true }]
      (by decide)
  exact hd.2.2.2.2.2.2.2.1

/-- Claim C8 counterexample: if `disconnect()` cleared `this.socket`
while the job's send was in flight, both result emits are skipped by
the `this.socket?.emit` optional chaining: the handler emits ZERO
result events for that job, refuting "it always emits exactly one
result event". -/
theorem handlePrintJob_no_socket_counterexample :
    (handlePrintJob none none false true ""
      { jobId := "abc", text := "AA==", format := "base64",
        printerIp := none, printerPort := none }).results = []
    ∧ ((handlePrintJob none none false true ""
      { jobId := "abc", text := "AA==", format := "base64",
        printerIp := none, printerPort := none }).results).length ≠ 1 := by
  refine ⟨rfl, by decide⟩

/-- Claim C8 (amended): for every job-dispatch event, provided the
session socket is still set when the handler emits (it can only be
unset by an explicit `disconnect()` racing the in-flight send), the
handler emits exactly one result event, carrying the dispatched
`jobId`, whose `success` is true exactly when the payload decoded
(`format === 'base64'`) and the pooled send succeeded; a failed
acquire, decode or send never escapes as an exception — it is caught
and converted into that single failure result.  Moreover the pooled
connection is released whether the send succeeded or failed: after
`printToPrinter` runs on an entry, every connection still marked
InUse was already InUse before the call (the acquired one is not
retained). -/
theorem handlePrintJob_single_result_amended :
    (∀ (envIp envPort : Option String) (printOk : Bool) (errMsg : String)
        (d : PrintJobData),
      ((handlePrintJob envIp envPort true printOk errMsg d).results).length = 1
      ∧ (∀ r ∈ (handlePrintJob envIp envPort true printOk errMsg d).results,
          r.jobId = d.jobId
          ∧ r.success = (decide (d.format = "base64") && printOk)))
    ∧ (∀ (t₁ t₂ : Nat) (a : PrintAttempt) (pool : Entry)
        (c : PooledConnection),
        c ∈ (printToPrinterEntry t₁ t₂ a pool).1 → c.inUse = true →
          c ∈ pool) := by
  constructor
  · intro envIp envPort printOk errMsg d
    by_cases hf : d.format = "base64"
    · by_cases hk : printOk = true
      · subst hk
        refine ⟨by simp [handlePrintJob, hf], ?_⟩
        intro r hr
        simp only [handlePrintJob, hf, if_true, if_pos rfl,
          List.mem_singleton] at hr
        subst hr
        simp [hf]
      · have hk' : printOk = false := Bool.eq_false_iff.mpr hk
        subst hk'
        refine ⟨by simp [handlePrintJob, hf], ?_⟩
        intro r hr
        simp only [handlePrintJob, hf, if_true, Bool.false_eq_true, if_false,
          List.mem_singleton] at hr
        subst hr
        simp [hf]
    · refine ⟨by simp [handlePrintJob, hf], ?_⟩
      intro r hr
      simp [handlePrintJob, hf] at hr
      subst hr
      simp [hf]
  · intro t₁ t₂ a pool c hc hinuse
    by_cases h : pool.any isAvailable = true
    · obtain ⟨l₁, cc, l₂, hdecomp, hl₁, hcc, hm⟩ :=
        printOnFirstAvailable_spec t₁ t₂ a pool h
      rw [hdecomp]
      have : (printToPrinterEntry t₁ t₂ a pool).1
          = l₁ ++ release t₂
              { markInUse t₁ cc with connected := a.connAfterSend } :: l₂ := by
        simp [printToPrinterEntry, h, hm]
      rw [this] at hc
      rcases List.mem_append.mp hc with h1 | h2
      · exact List.mem_append.mpr (Or.inl h1)
      · rcases List.mem_cons.mp h2 with h3 | h4
        · subst h3
          simp [release] at hinuse
        · exact List.mem_append.mpr (Or.inr (List.mem_cons.mpr (Or.inr h4)))
    · have h' : pool.any isAvailable = false := Bool.eq_false_iff.mpr h
      simpa [printToPrinterEntry, h'] using hc

/-- Claim C8 witness: a job whose send fails still yields exactly one
result event, a failure result with the job's id. -/
theorem handlePrintJob_single_result_amended_witness :
    ({ jobId := "j9", success := false,
       message := "Print job failed: boom" } : PrintResult).jobId = "j9"
    ∧ ({ jobId := "j9", success := false,
         message := "Print job failed: boom" } : PrintResult).success
      = (decide (("base64" : String) = "base64") && false) :=
  (handlePrintJob_single_result_amended.1 none none false "boom"
    { jobId := "j9", text := "AA==", format := "base64",
      printerIp := none, printerPort := none }).2
    { jobId := "j9", success := false, message := "Print job failed: boom" }
    (by decide)

end Veasyo
